import Mathlib

/-!
Verification development for the paquo hierarchy module
(`paquo/hierarchy.py`): a shallow embedding of the proxy/view layer
(`PathObjectProxy`), the hierarchy coordinator
(`QuPathPathObjectHierarchy`) and the bulk geojson ingestion path,
together with theorems settling the specification claims.

Machine-level convention: Python exceptions are modelled with `Except`
over an explicit error type; Python's mutable attribute state
(`cached_property` caches, the backing java hierarchy) is passed
explicitly as a state record.
-/

set_option autoImplicit false

namespace Paquo

/-- Python exception kinds raised by the embedded code.  `IOError` and
`TypeError` carry their message so that the two `IOError` uses of the
source (readonly vs view-restriction) stay distinguishable. -/
inductive PyErr where
  | ioError (msg : String)
  | typeError (msg : String)
  | valueError (msg : String)
  | indexError
  deriving DecidableEq, Repr

/-! ### Python slice and range semantics

`PathObjectProxy` composes masks with genuine Python slice semantics
(`_list[self._mask]`, `range(n)[self._mask][i]`, `self._mask[i]`), so
we embed CPython's `PySlice_AdjustIndices` and `range` slicing. -/

/-- A Python `slice(start, stop, step)` literal; `none` models an
omitted component. -/
structure PySlice where
  start : Option Int
  stop : Option Int
  step : Option Int
  deriving DecidableEq, Repr

/-- Clamp one slice component to `[lower, upper]` after Python's
negative-index adjustment relative to length `n`. -/
def adjustIndex (v : Int) (n : Nat) (lower upper : Int) : Int :=
  let v' := if v < 0 then v + n else v
  max lower (min upper v')

/-- CPython `PySlice_AdjustIndices`: resolve a slice against a sequence
of length `n`, returning the concrete `(start, stop, step)` triple. -/
def resolveSliceTriple (sl : PySlice) (n : Nat) : Int × Int × Int :=
  let step := sl.step.getD 1
  let lower : Int := if step < 0 then -1 else 0
  let upper : Int := if step < 0 then (n : Int) - 1 else (n : Int)
  let start :=
    match sl.start with
    | none => if step < 0 then upper else lower
    | some v => adjustIndex v n lower upper
  let stop :=
    match sl.stop with
    | none => if step < 0 then lower else upper
    | some v => adjustIndex v n lower upper
  (start, stop, step)

/-- Number of elements selected by the concrete progression
`start, start+step, ...` bounded by `stop` (Python slice length). -/
def sliceLen (start stop step : Int) : Nat :=
  if 0 < step then
    if stop ≤ start then 0 else (((stop - start - 1) / step) + 1).toNat
  else
    if start ≤ stop then 0 else (((start - stop - 1) / (-step)) + 1).toNat

/-- The concrete index sequence selected by a resolved slice triple. -/
def progIndices (start stop step : Int) : List Int :=
  (List.range (sliceLen start stop step)).map (fun k => start + step * (k : Int))

/-- Python list slicing `l[sl]`. -/
def pyGetSlice {α : Type} (l : List α) (sl : PySlice) : List α :=
  let t := resolveSliceTriple sl l.length
  (progIndices t.1 t.2.1 t.2.2).filterMap (fun i => l.get? i.toNat)

/-- Python list indexing `l[i]` with negative-index support; raises
`IndexError` when out of range. -/
def pyGetInt {α : Type} (l : List α) (i : Int) : Except PyErr α :=
  let j := if i < 0 then i + l.length else i
  if 0 ≤ j ∧ j < l.length then
    match l.get? j.toNat with
    | some a => .ok a
    | none => .error .indexError
  else
    .error .indexError

/-- A Python `range` object (`start`, `stop`, `step` are the attribute
values CPython stores, `step ≠ 0` for real ranges). -/
structure PyRange where
  start : Int
  stop : Int
  step : Int
  deriving DecidableEq, Repr

/-- Python `len(range(start, stop, step))`. -/
def rangeLen (r : PyRange) : Nat :=
  sliceLen r.start r.stop r.step

/-- Python `range(n)`. -/
def rangeOf (n : Nat) : PyRange := ⟨0, (n : Int), 1⟩

/-- CPython `range.__getitem__` with a slice: returns a new `range`
whose attributes are computed from the adjusted slice triple. -/
def rangeSlice (r : PyRange) (sl : PySlice) : PyRange :=
  let t := resolveSliceTriple sl (rangeLen r)
  ⟨r.start + t.1 * r.step, r.start + t.2.1 * r.step, r.step * t.2.2⟩

/-- CPython `range.__getitem__` with an integer (negative allowed). -/
def rangeGetItem (r : PyRange) (i : Int) : Except PyErr Int :=
  let n := rangeLen r
  let j := if i < 0 then i + n else i
  if 0 ≤ j ∧ j < n then .ok (r.start + r.step * j) else .error .indexError

/-- The element list of a range, for comparing range slicing with list
slicing. -/
def rangeToList (r : PyRange) : List Int :=
  progIndices r.start r.stop r.step

/-! ### Path objects and the java hierarchy -/

/-- The paquo wrapper classes relevant to the proxies:
`QuPathPathAnnotationObject`, `QuPathPathDetectionObject` and
`QuPathPathTileObject` (`tile` subclasses `detection`). -/
inductive PaquoCls where
  | annot
  | detection
  | tile
  deriving DecidableEq, Repr

/-- Python `isinstance(x, cls)` on the paquo object classes:
`QuPathPathTileObject` is a subclass of `QuPathPathDetectionObject`. -/
def instanceOf : PaquoCls → PaquoCls → Bool
  | .annot, .annot => true
  | .detection, .detection => true
  | .tile, .detection => true
  | .tile, .tile => true
  | _, _ => false

/-- A path object: java identity, paquo class, and the parent chain as
the `x.parent` walk of `__contains__` sees it. -/
inductive PObj where
  | mk (javaId : Nat) (cls : PaquoCls) (parent : Option PObj)

/-- Java identity of a path object. -/
def PObj.javaId : PObj → Nat
  | .mk i _ _ => i

/-- Paquo class of a path object. -/
def PObj.cls : PObj → PaquoCls
  | .mk _ c _ => c

/-- Parent of a path object (`x.parent`). -/
def PObj.parent : PObj → Option PObj
  | .mk _ _ p => p

/-- The `while x.parent is not None: x = x.parent` loop of
`PathObjectProxy.__contains__`: walk to the topmost ancestor. -/
def topmost : PObj → PObj
  | .mk i c none => .mk i c none
  | .mk _ _ (some p) => topmost p

/-- The backing `PathObjectHierarchy` java object: root identity and
the ordered collection of non-root objects it holds. -/
structure JavaHierarchy where
  rootId : Nat
  objects : List PObj

/-- Embeds `hierarchy.getObjects(None, paquo_cls.java_class)`: the ordered,
kind-filtered object list. -/
def getObjects (j : JavaHierarchy) (cls : PaquoCls) : List PObj :=
  j.objects.filter (fun o => instanceOf o.cls cls)

/-- Embeds `hierarchy.nObjects()`: total number of objects in the hierarchy
(all kinds, root excluded). -/
def nObjects (j : JavaHierarchy) : Nat :=
  j.objects.length

/-- The enclosing `QuPathProjectImageEntry`, reduced to the single
attribute the hierarchy reads: its `_readonly` flag. -/
structure Image where
  readonly : Bool
  deriving DecidableEq, Repr

/-- State of `QuPathPathObjectHierarchy`: the java hierarchy plus the weak
image reference, modelled post-resolution (`none` = reference absent or
expired). -/
structure Hierarchy where
  java : JavaHierarchy
  imageRef : Option Image

/-- Embeds `QuPathPathObjectHierarchy._readonly`: absent image reference means
writable, otherwise delegate to the image's `_readonly` flag. -/
def Hierarchy.readonlyFlag (h : Hierarchy) : Bool :=
  match h.imageRef with
  | none => false
  | some i => i.readonly

/-! ### The PathObjectProxy view -/

/-- A mask argument: `slice` or `Sequence[int]` (`None` is modelled by
`Option MaskArg`). -/
inductive MaskArg where
  | slice (s : PySlice)
  | ints (l : List Int)
  deriving DecidableEq, Repr

/-- The immutable configuration of a `PathObjectProxy`: its paquo class
filter and its mask (the hierarchy it is bound to lives in the state
record `ProxyState`). -/
structure PathObjectProxy where
  paquo_cls : PaquoCls
  mask : Option MaskArg
  deriving DecidableEq, Repr

/-- Embeds the mask validation of `PathObjectProxy.__init__`: `None`, any slice, or
an all-integer sequence of positive length is accepted; anything else
(here: the empty integer sequence) raises `TypeError`. -/
def PathObjectProxy.init (cls : PaquoCls) (mask : Option MaskArg) :
    Except PyErr PathObjectProxy :=
  match mask with
  | some (.ints l) =>
      if 0 < l.length then .ok ⟨cls, mask⟩
      else .error (.typeError "mask can be slice, or Sequence[int] or None")
  | _ => .ok ⟨cls, mask⟩

/-- Python truthiness of `self._mask` (`if self._mask:`): `None` is
falsy, a slice object is always truthy, a sequence is truthy iff
non-empty. -/
def maskTruthy : Option MaskArg → Bool
  | none => false
  | some (.slice _) => true
  | some (.ints l) => !l.isEmpty

/-- Mutable state seen by one proxy: the hierarchy it is bound to, its
`_list` cached_property cache and its `_readonly` cached_property
cache. -/
structure ProxyState where
  hier : Hierarchy
  listCache : Option (List PObj)
  readonlyCache : Option Bool

/-- Recompute `PathObjectProxy._readonly`:
`self._hierarchy._readonly or self._mask is not None`. -/
def readonlyCompute (p : PathObjectProxy) (s : ProxyState) : Bool :=
  s.hier.readonlyFlag || !p.mask.isNone

/-- Read `PathObjectProxy._readonly` through its `cached_property`:
return the memoized value if present, otherwise compute and store
it. -/
def readonlyGet (p : PathObjectProxy) (s : ProxyState) : Bool × ProxyState :=
  match s.readonlyCache with
  | some b => (b, s)
  | none =>
      let b := readonlyCompute p s
      (b, { s with readonlyCache := some b })

/-- Recompute `PathObjectProxy._list`: the kind-filtered object list,
restricted by the mask when the mask is truthy (slice masks slice the
list, integer masks index it element-wise, possibly raising
`IndexError`). -/
def listCompute (p : PathObjectProxy) (s : ProxyState) :
    Except PyErr (List PObj) :=
  let base := getObjects s.hier.java p.paquo_cls
  if maskTruthy p.mask then
    match p.mask with
    | some (.slice sl) => .ok (pyGetSlice base sl)
    | some (.ints l) => l.mapM (fun i => pyGetInt base i)
    | none => .ok base
  else
    .ok base

/-- Read `PathObjectProxy._list` through its `cached_property`: the
cache is filled only when the computation succeeds. -/
def listGet (p : PathObjectProxy) (s : ProxyState) :
    Except PyErr (List PObj) × ProxyState :=
  match s.listCache with
  | some l => (.ok l, s)
  | none =>
      match listCompute p s with
      | .ok l => (.ok l, { s with listCache := some l })
      | .error e => (.error e, s)

/-- Embeds `PathObjectProxy._list_invalidate_cache`: drop the `_list` cache
(idempotent; the `_readonly` cache is not touched). -/
def listInvalidateCache (s : ProxyState) : ProxyState :=
  { s with listCache := none }

/-- Default behaviour of `addPathObject` on the java hierarchy: append
the object. -/
def addPathObject (j : JavaHierarchy) (x : PObj) :
    Except PyErr JavaHierarchy :=
  .ok { j with objects := j.objects ++ [x] }

/-- Default behaviour of `removeObject(x, True)` on the java
hierarchy: drop objects with the same java identity. -/
def removeObject (j : JavaHierarchy) (x : PObj) :
    Except PyErr JavaHierarchy :=
  .ok { j with objects := j.objects.filter (fun o => o.javaId ≠ x.javaId) }

/-- Default behaviour of `getRootObject().removePathObjects(list)`:
drop every listed object. -/
def removePathObjects (j : JavaHierarchy) (l : List PObj) :
    Except PyErr JavaHierarchy :=
  .ok { j with objects := j.objects.filter (fun o => !(l.map PObj.javaId).contains o.javaId) }

/-- Embeds `PathObjectProxy.add`, parametrized over the backing store's
`addPathObject` so that store failures can be modelled: mask guard,
readonly guard, isinstance guard, then the store call wrapped in
`try/finally` with cache invalidation. -/
def PathObjectProxy.add
    (storeAdd : JavaHierarchy → PObj → Except PyErr JavaHierarchy)
    (p : PathObjectProxy) (x : PObj) (s : ProxyState) :
    Except PyErr Unit × ProxyState :=
  if maskTruthy p.mask then
    (.error (.ioError "cannot modify view"), s)
  else
    let (ro, s1) := readonlyGet p s
    if ro then
      (.error (.ioError "project in readonly mode"), s1)
    else if !instanceOf x.cls p.paquo_cls then
      (.error (.typeError "requires paquo_cls instance"), s1)
    else
      match storeAdd s1.hier.java x with
      | .ok j => (.ok (), listInvalidateCache { s1 with hier := { s1.hier with java := j } })
      | .error e => (.error e, listInvalidateCache s1)

/-- Embeds `PathObjectProxy.discard`, parametrized over the store's
`removeObject`. -/
def PathObjectProxy.discard
    (storeRemove : JavaHierarchy → PObj → Except PyErr JavaHierarchy)
    (p : PathObjectProxy) (x : PObj) (s : ProxyState) :
    Except PyErr Unit × ProxyState :=
  if maskTruthy p.mask then
    (.error (.ioError "cannot modify view"), s)
  else
    let (ro, s1) := readonlyGet p s
    if ro then
      (.error (.ioError "project in readonly mode"), s1)
    else if !instanceOf x.cls p.paquo_cls then
      (.error (.typeError "requires paquo_cls instance"), s1)
    else
      match storeRemove s1.hier.java x with
      | .ok j => (.ok (), listInvalidateCache { s1 with hier := { s1.hier with java := j } })
      | .error e => (.error e, listInvalidateCache s1)

/-- Embeds `PathObjectProxy.clear`, parametrized over the store's
`removePathObjects`; the `self._list` read happens inside the `try`
block, and the `finally` invalidates the cache on every path. -/
def PathObjectProxy.clear
    (storeRemoveMany : JavaHierarchy → List PObj → Except PyErr JavaHierarchy)
    (p : PathObjectProxy) (s : ProxyState) :
    Except PyErr Unit × ProxyState :=
  if maskTruthy p.mask then
    (.error (.ioError "cannot modify view"), s)
  else
    let (ro, s1) := readonlyGet p s
    if ro then
      (.error (.ioError "project in readonly mode"), s1)
    else
      match listGet p s1 with
      | (.ok l, s2) =>
          match storeRemoveMany s2.hier.java l with
          | .ok j => (.ok (), listInvalidateCache { s2 with hier := { s2.hier with java := j } })
          | .error e => (.error e, listInvalidateCache s2)
      | (.error e, s2) => (.error e, listInvalidateCache s2)

/-- Embeds `PathObjectProxy.__contains__`: foreign paquo class is rejected
without walking; otherwise walk the parent chain and compare the
topmost ancestor's java object with the hierarchy root. -/
def PathObjectProxy.containsObj (p : PathObjectProxy) (s : ProxyState)
    (x : PObj) : Bool :=
  if !instanceOf x.cls p.paquo_cls then false
  else (topmost x).javaId == s.hier.java.rootId

/-- Argument of `PathObjectProxy.__getitem__`: an integer, a slice, or
a sequence of integers. -/
inductive GetArg where
  | int (i : Int)
  | slice (sl : PySlice)
  | ints (l : List Int)
  deriving DecidableEq, Repr

/-- Result of `PathObjectProxy.__getitem__`: a single wrapped object or
a new derived proxy. -/
inductive GetResult where
  | obj (o : PObj)
  | proxy (q : PathObjectProxy)

/-- Embeds `PathObjectProxy.__getitem__`.  Integer access materializes `_list`
and indexes it; slice and sequence access compose the current mask with
the argument (resolving slice masks against `range(nObjects())`) and
construct a new `PathObjectProxy`, whose constructor may reject an
empty composed sequence mask with `TypeError`. -/
def PathObjectProxy.getItem (p : PathObjectProxy) (a : GetArg)
    (s : ProxyState) : Except PyErr GetResult × ProxyState :=
  match a with
  | .int i =>
      match listGet p s with
      | (.ok l, s1) =>
          (match pyGetInt l i with
           | .ok o => (.ok (.obj o), s1)
           | .error e => (.error e, s1))
      | (.error e, s1) => (.error e, s1)
  | .slice sl =>
      let newMask : MaskArg :=
        match p.mask with
        | none => .slice sl
        | some (.slice m) =>
            let r1 := rangeSlice (rangeSlice (rangeOf (nObjects s.hier.java)) m) sl
            .slice ⟨some r1.start, some r1.stop, some r1.step⟩
        | some (.ints l) => .ints (pyGetSlice l sl)
      (match PathObjectProxy.init p.paquo_cls (some newMask) with
       | .ok q => (.ok (.proxy q), s)
       | .error e => (.error e, s))
  | .ints il =>
      let composed : Except PyErr MaskArg :=
        match p.mask with
        | none => .ok (.ints il)
        | some (.slice m) =>
            let r1 := rangeSlice (rangeOf (nObjects s.hier.java)) m
            (il.mapM (fun idx => rangeGetItem r1 idx)).map .ints
        | some (.ints l) =>
            (il.mapM (fun idx => pyGetInt l idx)).map .ints
      match composed with
      | .ok nm =>
          (match PathObjectProxy.init p.paquo_cls (some nm) with
           | .ok q => (.ok (.proxy q), s)
           | .error e => (.error e, s))
      | .error e => (.error e, s)

/-- Embeds `PathObjectProxy.__len__`: length of the materialized `_list`. -/
def PathObjectProxy.lengthOf (p : PathObjectProxy) (s : ProxyState) :
    Except PyErr Nat × ProxyState :=
  match listGet p s with
  | (.ok l, s1) => (.ok l.length, s1)
  | (.error e, s1) => (.error e, s1)

/-! ### Bulk ingestion: `load_geojson` -/

/-- A geojson feature record, reduced to the fields `load_geojson`
reads: `geometry`, `properties.classification.name`,
`properties.object_type`, and the `id` type tag.  The geometry payload
type is a parameter (shapely is an external collaborator). -/
structure GeoRecord (Geom : Type) where
  geometry : Geom
  classificationName : Option String
  objectType : Option String
  idTag : Option String

/-- The fixed compatibility mapping from geojson `object_type` names to
QuPath id tags. -/
def objectIdFor (t : String) : Option String :=
  if t = "annotation" then some "PathAnnotationObject"
  else if t = "detection" then some "PathDetectionObject"
  else if t = "tile" then some "PathTileObject"
  else if t = "cell" then some "PathCellObject"
  else if t = "tma_core" then some "TMACoreObject"
  else if t = "root" then some "PathRootObject"
  else if t = "unknown" then some "PathAnnotationObject"
  else none

/-- The `fix_invalid` block of `load_geojson`: validate the record's
geometry; when invalid, apply at most two `buffer(0, 1)` repair passes,
and raise `ValueError` when the geometry is still invalid after the
second pass. -/
def fixGeometry {Geom : Type} (isValid : Geom → Bool)
    (buffer01 : Geom → Geom) (g : Geom) : Except Unit Geom :=
  if isValid g then .ok g
  else
    let s1 := buffer01 g
    if isValid s1 then .ok s1
    else
      let s2 := buffer01 s1
      if isValid s2 then .ok s2
      else .error ()

/-- The `try` body of `load_geojson`'s per-record loop: optional
geometry repair, compatibility normalization of the `id` tag, then
conversion via `QuPathPathAnnotationObject.from_geojson` (external,
passed as `from_geojson`; its failure models the caught
`IllegalArgumentException`/`ValueError`). -/
def processRecord {Geom : Type} (isValid : Geom → Bool)
    (buffer01 : Geom → Geom)
    (from_geojson : GeoRecord Geom → Except Unit PObj)
    (compat fix_invalid : Bool) (r : GeoRecord Geom) : Except Unit PObj :=
  match (if fix_invalid then fixGeometry isValid buffer01 r.geometry
         else .ok r.geometry) with
  | .error () => .error ()
  | .ok g =>
      let r1 := { r with geometry := g }
      let object_type := r1.objectType.getD "unknown"
      let object_id := (objectIdFor object_type).getD "PathAnnotationObject"
      let r2 :=
        if compat && r1.idTag.isNone then { r1 with idTag := some object_id }
        else r1
      match from_geojson r2 with
      | .ok ao => .ok ao
      | .error () => .error ()

/-- The skip-tally name for a failed record:
`annotation["properties"].get("classification", \x7b\x7d).get("name", "UNDEFINED")`. -/
def skipName {Geom : Type} (r : GeoRecord Geom) : String :=
  r.classificationName.getD "UNDEFINED"

/-- One step of `load_geojson`'s loop, accumulating the staged java
objects `aos` and the skip tally (one entry per skipped record, keyed
by classification name, in order). -/
def loadStep {Geom : Type} (isValid : Geom → Bool)
    (buffer01 : Geom → Geom)
    (from_geojson : GeoRecord Geom → Except Unit PObj)
    (compat fix_invalid : Bool)
    (acc : List PObj × List String) (r : GeoRecord Geom) :
    List PObj × List String :=
  match processRecord isValid buffer01 from_geojson compat fix_invalid r with
  | .ok ao => (acc.1 ++ [ao], acc.2)
  | .error () => (acc.1, acc.2 ++ [skipName r])

/-- The whole per-record loop of `load_geojson`. -/
def processAll {Geom : Type} (isValid : Geom → Bool)
    (buffer01 : Geom → Geom)
    (from_geojson : GeoRecord Geom → Except Unit PObj)
    (compat fix_invalid : Bool) (geojson : List (GeoRecord Geom)) :
    List PObj × List String :=
  geojson.foldl (loadStep isValid buffer01 from_geojson compat fix_invalid)
    ([], [])

/-- Embeds `hierarchy.insertPathObjects(aos)`: batch insertion; reports
whether the hierarchy changed. -/
def insertPathObjects (j : JavaHierarchy) (aos : List PObj) :
    Bool × JavaHierarchy :=
  (!aos.isEmpty, { j with objects := j.objects ++ aos })

/-- Embeds `QuPathPathObjectHierarchy.load_geojson`: readonly guard, the
per-record loop, then — when any record was skipped — either the
`raise_on_skip` `ValueError` (raised before any insertion) or a logged
summary, and finally the batch insertion whose change flag is
returned. -/
def load_geojson {Geom : Type} (isValid : Geom → Bool)
    (buffer01 : Geom → Geom)
    (from_geojson : GeoRecord Geom → Except Unit PObj)
    (compat : Bool) (h : Hierarchy) (geojson : List (GeoRecord Geom))
    (raise_on_skip fix_invalid : Bool) :
    Except PyErr Bool × Hierarchy :=
  if h.readonlyFlag then
    (.error (.ioError "project in readonly mode"), h)
  else
    let res := processAll isValid buffer01 from_geojson compat fix_invalid geojson
    let aos := res.1
    let skipped := res.2
    if !skipped.isEmpty && raise_on_skip then
      (.error (.valueError ("could not convert " ++ toString skipped.length
        ++ " annotations")), h)
    else
      let ins := insertPathObjects h.java aos
      (.ok ins.1, { h with java := ins.2 })

/-! ### Concrete fixtures used by counterexamples and witnesses -/

/-- An annotation object with the given java id and no parent. -/
def ann (i : Nat) : PObj := .mk i .annot none

/-- A five-annotation hierarchy (java ids 1..5, root id 0). -/
def h5 : Hierarchy := ⟨⟨0, [ann 1, ann 2, ann 3, ann 4, ann 5]⟩, none⟩

/-- Proxy state bound to `h5`, caches empty. -/
def s5 : ProxyState := ⟨h5, none, none⟩

/-- The unmasked annotations base view. -/
def baseView : PathObjectProxy := ⟨.annot, none⟩

/-- The Python slice `[::-1]`. -/
def revSlice : PySlice := ⟨none, none, some (-1)⟩

/-- The Python slice `[:]`. -/
def fullSlice : PySlice := ⟨none, none, none⟩

/-! ### C5: structural containment -/

/-- Auxiliary: the parent-chain walk really ends at a parentless
ancestor. -/
theorem topmost_parent_none : (x : PObj) → (topmost x).parent = none
  | .mk _ _ none => rfl
  | .mk _ _ (some p) => by
      rw [topmost]
      exact topmost_parent_none p

/-- C5: `contains(x)` is false for a foreign paquo class, and otherwise
holds exactly when the topmost ancestor of `x`'s parent chain is the
hierarchy's root object; the answer never depends on the view's caches
(`_list` or `_readonly`). -/
theorem C5_contains_structural (p : PathObjectProxy) (s : ProxyState)
    (x : PObj) :
    p.containsObj s x
      = (instanceOf x.cls p.paquo_cls
          && ((topmost x).javaId == s.hier.java.rootId))
    ∧ (topmost x).parent = none
    ∧ ∀ c ro, p.containsObj { s with listCache := c, readonlyCache := ro } x
        = p.containsObj s x := by
  refine ⟨?_, topmost_parent_none x, fun c ro => rfl⟩
  unfold PathObjectProxy.containsObj
  cases hi : instanceOf x.cls p.paquo_cls <;> simp [hi]

/-! ### C6: absent image reference means writable -/

/-- C6: a hierarchy whose weak image reference resolves to absent is
writable. -/
theorem C6_absent_image_ref_writable (h : Hierarchy)
    (href : h.imageRef = none) : h.readonlyFlag = false := by
  simp [Hierarchy.readonlyFlag, href]

/-- Witness for C6 at a concrete hierarchy. -/
theorem C6_absent_image_ref_writable_witness :
    (⟨⟨0, []⟩, none⟩ : Hierarchy).imageRef = none
    ∧ (⟨⟨0, []⟩, none⟩ : Hierarchy).readonlyFlag = false :=
  ⟨rfl, C6_absent_image_ref_writable ⟨⟨0, []⟩, none⟩ rfl⟩

/-! ### C8: mask validation at construction -/

/-- C8: constructing a view with an empty index-list mask raises
`TypeError`; `None`, any slice, and any non-empty integer list are
accepted. -/
theorem C8_mask_validation (cls : PaquoCls) (sl : PySlice)
    (l : List Int) (hl : l ≠ []) :
    PathObjectProxy.init cls (some (.ints []))
      = .error (.typeError "mask can be slice, or Sequence[int] or None")
    ∧ PathObjectProxy.init cls none = .ok ⟨cls, none⟩
    ∧ PathObjectProxy.init cls (some (.slice sl)) = .ok ⟨cls, some (.slice sl)⟩
    ∧ PathObjectProxy.init cls (some (.ints l)) = .ok ⟨cls, some (.ints l)⟩ := by
  refine ⟨rfl, rfl, rfl, ?_⟩
  simp [PathObjectProxy.init, List.length_pos, hl]

/-- Witness for C8 at a concrete class, slice and non-empty list. -/
theorem C8_mask_validation_witness :
    ([3] : List Int) ≠ []
    ∧ (PathObjectProxy.init .annot (some (.ints []))
        = .error (.typeError "mask can be slice, or Sequence[int] or None")
      ∧ PathObjectProxy.init .annot none = .ok ⟨.annot, none⟩
      ∧ PathObjectProxy.init .annot (some (.slice fullSlice))
          = .ok ⟨.annot, some (.slice fullSlice)⟩
      ∧ PathObjectProxy.init .annot (some (.ints [3]))
          = .ok ⟨.annot, some (.ints [3])⟩) :=
  ⟨by simp, C8_mask_validation .annot fullSlice [3] (by simp)⟩

/-! ### C10: composed empty index-list mask fails in getitem -/

/-- A derived view carrying the one-element index-list mask `[0]`. -/
def pIdx : PathObjectProxy := ⟨.annot, some (.ints [0])⟩

/-- C10: slicing the one-element index-list view `pIdx` with `[5:10]`
composes to the empty index list, which the constructor rejects, so
`__getitem__` raises `TypeError` instead of returning a derived
view. -/
theorem C10_empty_composed_mask_typeerror :
    PathObjectProxy.init PaquoCls.annot (some (.ints [0])) = .ok pIdx
    ∧ (pIdx.getItem (.slice ⟨some 5, some 10, none⟩) s5).1
        = .error (.typeError "mask can be slice, or Sequence[int] or None") :=
  ⟨rfl, rfl⟩

/-! ### C4: derived views reject all mutation, leaving the store
unchanged -/

/-- Auxiliary: a mask accepted by the constructor is truthy. -/
theorem maskTruthy_of_init_ok (cls : PaquoCls) (m : MaskArg)
    (p : PathObjectProxy)
    (hc : PathObjectProxy.init cls (some m) = .ok p) :
    maskTruthy (some m) = true := by
  cases m with
  | slice sl => rfl
  | ints l =>
      by_cases hl : 0 < l.length
      · simp [maskTruthy, List.isEmpty_iff, ← List.length_pos, hl]
      · simp [PathObjectProxy.init, hl] at hc

/-- C4: on any derived (constructor-accepted, masked) view, `add`,
`discard` and `clear` all raise the view-restriction `IOError` and
leave the whole state — in particular the backing store — untouched,
whatever the backing store operations would have done. -/
theorem C4_derived_views_reject_mutation
    (storeAdd storeRemove : JavaHierarchy → PObj → Except PyErr JavaHierarchy)
    (storeRemoveMany : JavaHierarchy → List PObj → Except PyErr JavaHierarchy)
    (p : PathObjectProxy) (m : MaskArg) (x : PObj) (s : ProxyState)
    (hm : p.mask = some m)
    (hc : PathObjectProxy.init p.paquo_cls (some m) = .ok p) :
    p.add storeAdd x s = (.error (.ioError "cannot modify view"), s)
    ∧ p.discard storeRemove x s = (.error (.ioError "cannot modify view"), s)
    ∧ p.clear storeRemoveMany s = (.error (.ioError "cannot modify view"), s) := by
  have ht : maskTruthy p.mask = true := by
    rw [hm]
    exact maskTruthy_of_init_ok p.paquo_cls m p hc
  refine ⟨?_, ?_, ?_⟩ <;>
    simp [PathObjectProxy.add, PathObjectProxy.discard, PathObjectProxy.clear, ht]

/-- Witness for C4: a slice-masked derived annotation view rejects all
three mutations on the five-annotation fixture. -/
theorem C4_derived_views_reject_mutation_witness :
    (⟨.annot, some (.slice fullSlice)⟩ : PathObjectProxy).mask
      = some (.slice fullSlice)
    ∧ ((⟨.annot, some (.slice fullSlice)⟩ : PathObjectProxy).add
          addPathObject (ann 9) s5
        = (.error (.ioError "cannot modify view"), s5)
      ∧ (⟨.annot, some (.slice fullSlice)⟩ : PathObjectProxy).discard
          removeObject (ann 1) s5
        = (.error (.ioError "cannot modify view"), s5)
      ∧ (⟨.annot, some (.slice fullSlice)⟩ : PathObjectProxy).clear
          removePathObjects s5
        = (.error (.ioError "cannot modify view"), s5)) :=
  ⟨rfl, C4_derived_views_reject_mutation addPathObject removeObject
    removePathObjects ⟨.annot, some (.slice fullSlice)⟩
    (.slice fullSlice) (ann 9) s5 rfl rfl⟩

/-! ### C9: mutation on a writable base view always invalidates the
`_list` cache, even when the store operation raises -/

/-- C9: on a base view whose readonly check evaluates to `false`, every
`add`/`discard`/`clear` call that reaches the store operation leaves
the `_list` cache invalidated, for arbitrary (possibly raising) store
behaviour. -/
theorem C9_mutation_invalidates_cache
    (storeAdd storeRemove : JavaHierarchy → PObj → Except PyErr JavaHierarchy)
    (storeRemoveMany : JavaHierarchy → List PObj → Except PyErr JavaHierarchy)
    (p : PathObjectProxy) (x : PObj) (s : ProxyState)
    (hm : p.mask = none)
    (hro : (readonlyGet p s).1 = false)
    (hx : instanceOf x.cls p.paquo_cls = true) :
    (p.add storeAdd x s).2.listCache = none
    ∧ (p.discard storeRemove x s).2.listCache = none
    ∧ (p.clear storeRemoveMany s).2.listCache = none := by
  have htm : maskTruthy p.mask = false := by rw [hm]; rfl
  rcases hg : readonlyGet p s with ⟨ro, s1⟩
  have hro1 : ro = false := by rw [hg] at hro; exact hro
  subst hro1
  refine ⟨?_, ?_, ?_⟩
  · simp only [PathObjectProxy.add, htm, hg, hx, Bool.false_eq_true,
      if_false, Bool.not_true, Bool.not_false]
    cases hsa : storeAdd s1.hier.java x <;> simp [hsa, listInvalidateCache]
  · simp only [PathObjectProxy.discard, htm, hg, hx, Bool.false_eq_true,
      if_false, Bool.not_true, Bool.not_false]
    cases hsr : storeRemove s1.hier.java x <;> simp [hsr, listInvalidateCache]
  · simp only [PathObjectProxy.clear, htm, hg, Bool.false_eq_true, if_false]
    rcases hlg : listGet p s1 with ⟨res, s2⟩
    cases res with
    | ok l =>
        simp only [hlg]
        cases hsm : storeRemoveMany s2.hier.java l <;>
          simp [hsm, listInvalidateCache]
    | error e => simp [hlg, listInvalidateCache]

/-- Witness for C9: a writable base view with a populated `_list`
cache, exercised against store operations that raise; after each
mutation attempt the cache is gone. -/
theorem C9_mutation_invalidates_cache_witness :
    ((baseView.mask = none
      ∧ (readonlyGet baseView ⟨h5, some [ann 1], none⟩).1 = false
      ∧ instanceOf (ann 9).cls baseView.paquo_cls = true)
    ∧ ((baseView.add (fun _ _ => .error (.ioError "store failure"))
          (ann 9) ⟨h5, some [ann 1], none⟩).2.listCache = none
      ∧ (baseView.discard (fun _ _ => .error (.ioError "store failure"))
          (ann 9) ⟨h5, some [ann 1], none⟩).2.listCache = none
      ∧ (baseView.clear (fun _ _ => .error (.ioError "store failure"))
          ⟨h5, some [ann 1], none⟩).2.listCache = none)) :=
  ⟨⟨rfl, rfl, rfl⟩,
    C9_mutation_invalidates_cache
      (fun _ _ => .error (.ioError "store failure"))
      (fun _ _ => .error (.ioError "store failure"))
      (fun _ _ => .error (.ioError "store failure"))
      baseView (ann 9) ⟨h5, some [ann 1], none⟩ rfl rfl rfl⟩

/-! ### C3: readonly is captured by a `cached_property`, not re-derived -/

/-- A writable enclosing image. -/
def imgW : Image := ⟨false⟩

/-- A readonly enclosing image. -/
def imgR : Image := ⟨true⟩

/-- Proxy state bound to an empty hierarchy inside the writable
image. -/
def sImg : ProxyState := ⟨⟨⟨0, []⟩, some imgW⟩, none, none⟩

/-- State after a first successful `add` on the base view: the
`_readonly` cached_property now holds `false`. -/
def sAfterFirstAdd : ProxyState := (baseView.add addPathObject (ann 11) sImg).2

/-- State after the enclosing image's readonly flag flips to `true`
(the proxy's cached `_readonly` is untouched). -/
def sFlipped : ProxyState :=
  { sAfterFirstAdd with
      hier := { sAfterFirstAdd.hier with imageRef := some imgR } }

/-- C3 counterexample: with the enclosing image readonly at the time of
the call, `add` on the writable-cached base view still succeeds — the
readonly state is not re-derived on every access. -/
theorem C3_counterexample_stale_readonly :
    baseView.mask = none
    ∧ sFlipped.hier.readonlyFlag = true
    ∧ sFlipped.readonlyCache = some false
    ∧ (baseView.add addPathObject (ann 12) sFlipped).1 = .ok () :=
  ⟨rfl, rfl, rfl, rfl⟩

/-- C3 amended: `add` on a base view fails with the readonly `IOError`
when the view's memoized `_readonly` is `true`, or when it is not yet
memoized and the enclosing container's readonly flag is `true` at the
time of the call; the store is left unchanged.  (Because `_readonly` is
a `cached_property`, flag changes after the first computation are not
observed.) -/
theorem C3_add_readonly_at_first_computation
    (storeAdd : JavaHierarchy → PObj → Except PyErr JavaHierarchy)
    (p : PathObjectProxy) (x : PObj) (s : ProxyState)
    (hm : p.mask = none)
    (hro : s.readonlyCache = some true
        ∨ (s.readonlyCache = none ∧ s.hier.readonlyFlag = true)) :
    (p.add storeAdd x s).1 = .error (.ioError "project in readonly mode")
    ∧ (p.add storeAdd x s).2.hier = s.hier := by
  have htm : maskTruthy p.mask = false := by rw [hm]; rfl
  have hg : readonlyGet p s
      = (true, { s with readonlyCache := some true }) ∨ readonlyGet p s = (true, s) := by
    rcases hro with hsome | ⟨hnone, hflag⟩
    · right
      unfold readonlyGet
      rw [hsome]
    · left
      unfold readonlyGet
      rw [hnone]
      simp [readonlyCompute, hflag]
  rcases hg with hg | hg <;>
    simp [PathObjectProxy.add, htm, hg]

/-- Witness for C3's amended theorem: a fresh base view inside a
readonly image rejects `add` and leaves the store alone. -/
theorem C3_add_readonly_witness :
    (baseView.mask = none
      ∧ ((⟨⟨⟨0, []⟩, some imgR⟩, none, none⟩ : ProxyState).readonlyCache = none
        ∧ (⟨⟨⟨0, []⟩, some imgR⟩, none, none⟩ : ProxyState).hier.readonlyFlag = true))
    ∧ ((baseView.add addPathObject (ann 12)
          ⟨⟨⟨0, []⟩, some imgR⟩, none, none⟩).1
        = .error (.ioError "project in readonly mode")
      ∧ (baseView.add addPathObject (ann 12)
          ⟨⟨⟨0, []⟩, some imgR⟩, none, none⟩).2.hier
        = (⟨⟨⟨0, []⟩, some imgR⟩, none, none⟩ : ProxyState).hier) :=
  ⟨⟨rfl, rfl, rfl⟩,
    C3_add_readonly_at_first_computation addPathObject baseView (ann 12)
      ⟨⟨⟨0, []⟩, some imgR⟩, none, none⟩ rfl (Or.inr ⟨rfl, rfl⟩)⟩

/-! ### C1: `load(…, raise_on_skip=True)` raises before inserting -/

/-- Concrete geometry validity for the load fixtures: non-negative
integers are valid. -/
def isValidN : Int → Bool := fun g => g ≥ 0

/-- Concrete repair pass for the load fixtures: the identity (never
repairs anything). -/
def bufN : Int → Int := fun g => g

/-- Concrete conversion for the load fixtures: succeeds exactly on
valid geometries. -/
def convN : GeoRecord Int → Except Unit PObj := fun r =>
  if r.geometry ≥ 0 then .ok (.mk r.geometry.toNat .annot none)
  else .error ()

/-- A record that converts successfully. -/
def recGood : GeoRecord Int := ⟨7, some "Tumor", none, some "PathAnnotationObject"⟩

/-- A record whose conversion fails. -/
def recBad : GeoRecord Int := ⟨-1, some "Stroma", none, some "PathAnnotationObject"⟩

/-- A writable one-annotation hierarchy for the load fixtures. -/
def hL : Hierarchy := ⟨⟨0, [ann 1]⟩, none⟩

/-- C1 counterexample: one record converts successfully and one fails;
with `raise_on_skip=True` the `ValueError` is raised and the hierarchy
comes back exactly as it went in — the successful conversion was NOT
inserted, so the operation is atomic here, contrary to the claim. -/
theorem C1_counterexample_store_unchanged :
    processAll isValidN bufN convN false false [recGood, recBad]
      = ([.mk 7 .annot none], ["Stroma"])
    ∧ load_geojson isValidN bufN convN false hL [recGood, recBad] true false
      = (.error (.valueError "could not convert 1 annotations"), hL) :=
  ⟨rfl, rfl⟩

/-- C1 amended: whenever at least one record fails conversion and
`raise_on_skip` is set, `load_geojson` raises the skip `ValueError`
before `insertPathObjects` runs, so no staged object is inserted and
the hierarchy is returned unchanged. -/
theorem C1_raise_precedes_insertion {Geom : Type} (isValid : Geom → Bool)
    (buffer01 : Geom → Geom)
    (from_geojson : GeoRecord Geom → Except Unit PObj) (compat : Bool)
    (h : Hierarchy) (geojson : List (GeoRecord Geom)) (fix_invalid : Bool)
    (hro : h.readonlyFlag = false)
    (hskip : (processAll isValid buffer01 from_geojson compat fix_invalid
        geojson).2 ≠ []) :
    load_geojson isValid buffer01 from_geojson compat h geojson true fix_invalid
      = (.error (.valueError ("could not convert "
          ++ toString (processAll isValid buffer01 from_geojson compat
              fix_invalid geojson).2.length ++ " annotations")), h) := by
  unfold load_geojson
  rw [hro]
  simp only [Bool.false_eq_true, if_false]
  have hne : (processAll isValid buffer01 from_geojson compat fix_invalid
      geojson).2.isEmpty = false := by
    simp [List.isEmpty_iff, hskip]
  rw [hne]
  rfl

/-- Witness for C1's amended theorem at the concrete load fixture. -/
theorem C1_raise_precedes_insertion_witness :
    (hL.readonlyFlag = false
      ∧ (processAll isValidN bufN convN false false [recGood, recBad]).2 ≠ [])
    ∧ load_geojson isValidN bufN convN false hL [recGood, recBad] true false
      = (.error (.valueError ("could not convert "
          ++ toString (processAll isValidN bufN convN false false
              [recGood, recBad]).2.length ++ " annotations")), hL) :=
  ⟨⟨rfl, by simp [processAll, loadStep, processRecord, convN, recGood, recBad, skipName]⟩,
    C1_raise_precedes_insertion isValidN bufN convN false hL [recGood, recBad]
      false rfl
      (by simp [processAll, loadStep, processRecord, convN, recGood, recBad, skipName])⟩

/-! ### C2: mask composition is not associative in effect -/

/-- Modelled from the spec: resolving the composition of two slice
restrictions directly against the view's kind-filtered object list,
i.e. genuine nested Python slicing of that list. -/
def directResolveSlices (j : JavaHierarchy) (cls : PaquoCls)
    (m1 m2 : PySlice) : List PObj :=
  pyGetSlice (pyGetSlice (getObjects j cls) m1) m2

/-- The derived view produced by `annotations[::-1]` on the
five-annotation fixture. -/
def pRev : PathObjectProxy := ⟨.annot, some (.slice revSlice)⟩

/-- The derived view produced by `annotations[::-1][:]` on the
five-annotation fixture: the composed mask has collapsed to
`slice(4, -1, -1)`, which selects nothing from a 5-element list. -/
def pRevFull : PathObjectProxy :=
  ⟨.annot, some (.slice ⟨some 4, some (-1), some (-1)⟩)⟩

/-- C2 failing evaluation: on a hierarchy of five annotations,
`annotations[::-1][:][0]` raises `IndexError` through the code's mask
composition, while resolving the composed restriction directly against
the kind-filtered list yields the annotation with java id 5 — mask
composition is not associative in effect. -/
theorem C2_mask_composition_failing_eval :
    (baseView.getItem (.slice revSlice) s5).1 = .ok (.proxy pRev)
    ∧ (pRev.getItem (.slice fullSlice) s5).1 = .ok (.proxy pRevFull)
    ∧ (pRevFull.getItem (.int 0) s5).1 = .error .indexError
    ∧ (directResolveSlices h5.java .annot revSlice fullSlice).get? 0
        = some (.mk 5 .annot none) :=
  ⟨rfl, rfl, rfl, rfl⟩

/-! ### C7: at most two repair passes; a failed record is tallied and
the batch continues -/

section LoadLemmas

variable {Geom : Type} (isValid : Geom → Bool) (buffer01 : Geom → Geom)
variable (from_geojson : GeoRecord Geom → Except Unit PObj)
variable (compat fix_invalid : Bool)

/-- Auxiliary: one loop step only appends to the accumulator. -/
theorem loadStep_split (acc : List PObj × List String) (r : GeoRecord Geom) :
    loadStep isValid buffer01 from_geojson compat fix_invalid acc r
      = (acc.1 ++ (loadStep isValid buffer01 from_geojson compat fix_invalid
            ([], []) r).1,
         acc.2 ++ (loadStep isValid buffer01 from_geojson compat fix_invalid
            ([], []) r).2) := by
  unfold loadStep
  cases processRecord isValid buffer01 from_geojson compat fix_invalid r <;> simp

/-- Auxiliary: the per-record loop from an arbitrary accumulator is the
loop from the empty accumulator, appended. -/
theorem foldl_loadStep_acc (l : List (GeoRecord Geom))
    (acc : List PObj × List String) :
    l.foldl (loadStep isValid buffer01 from_geojson compat fix_invalid) acc
      = (acc.1 ++ (processAll isValid buffer01 from_geojson compat fix_invalid
            l).1,
         acc.2 ++ (processAll isValid buffer01 from_geojson compat fix_invalid
            l).2) := by
  induction l generalizing acc with
  | nil => simp [processAll]
  | cons r t ih =>
      have h1 : processAll isValid buffer01 from_geojson compat fix_invalid
          (r :: t)
          = ((loadStep isValid buffer01 from_geojson compat fix_invalid
                ([], []) r).1
              ++ (processAll isValid buffer01 from_geojson compat fix_invalid t).1,
             (loadStep isValid buffer01 from_geojson compat fix_invalid
                ([], []) r).2
              ++ (processAll isValid buffer01 from_geojson compat fix_invalid t).2) := by
        unfold processAll
        rw [List.foldl_cons, ih]
        rfl
      rw [List.foldl_cons, ih, loadStep_split, h1]
      simp only [List.append_assoc]

/-- Auxiliary: the per-record loop treats records independently — the
loop over a concatenation is the concatenation of the loops. -/
theorem processAll_append (xs ys : List (GeoRecord Geom)) :
    processAll isValid buffer01 from_geojson compat fix_invalid (xs ++ ys)
      = ((processAll isValid buffer01 from_geojson compat fix_invalid xs).1
          ++ (processAll isValid buffer01 from_geojson compat fix_invalid ys).1,
         (processAll isValid buffer01 from_geojson compat fix_invalid xs).2
          ++ (processAll isValid buffer01 from_geojson compat fix_invalid ys).2) := by
  unfold processAll
  rw [List.foldl_append, foldl_loadStep_acc]
  rfl

end LoadLemmas

/-- C7: with `fix_invalid=True`, geometry repair applies at most two
`buffer(0, 1)` passes (the result is always the unrepaired geometry,
one pass, two passes, or failure); a record still invalid after the
second pass contributes no object, is tallied once under its
classification name — defaulting to UNDEFINED — and the records before
and after it are processed exactly as they would be on their own. -/
theorem C7_two_repair_passes_then_skip {Geom : Type}
    (isValid : Geom → Bool) (buffer01 : Geom → Geom)
    (from_geojson : GeoRecord Geom → Except Unit PObj) (compat : Bool)
    (pre post : List (GeoRecord Geom)) (r : GeoRecord Geom)
    (h1 : isValid r.geometry = false)
    (h2 : isValid (buffer01 r.geometry) = false)
    (h3 : isValid (buffer01 (buffer01 r.geometry)) = false) :
    (∀ g : Geom, fixGeometry isValid buffer01 g = .error ()
        ∨ fixGeometry isValid buffer01 g = .ok g
        ∨ fixGeometry isValid buffer01 g = .ok (buffer01 g)
        ∨ fixGeometry isValid buffer01 g = .ok (buffer01 (buffer01 g)))
    ∧ processAll isValid buffer01 from_geojson compat true (pre ++ r :: post)
        = ((processAll isValid buffer01 from_geojson compat true pre).1
            ++ (processAll isValid buffer01 from_geojson compat true post).1,
           (processAll isValid buffer01 from_geojson compat true pre).2
            ++ skipName r
              :: (processAll isValid buffer01 from_geojson compat true post).2)
    ∧ (r.classificationName = none → skipName r = "UNDEFINED") := by
  refine ⟨?_, ?_, ?_⟩
  · intro g
    by_cases hg : isValid g = true
    · simp [fixGeometry, hg]
    · by_cases hg1 : isValid (buffer01 g) = true
      · simp [fixGeometry, hg, hg1]
      · by_cases hg2 : isValid (buffer01 (buffer01 g)) = true
        · simp [fixGeometry, hg, hg1, hg2]
        · simp [fixGeometry, hg, hg1, hg2]
  · have hfix : fixGeometry isValid buffer01 r.geometry = .error () := by
      simp [fixGeometry, h1, h2, h3]
    have hpr : processRecord isValid buffer01 from_geojson compat true r
        = .error () := by
      simp [processRecord, hfix]
    have hf0 : loadStep isValid buffer01 from_geojson compat true ([], []) r
        = ([], [skipName r]) := by
      simp [loadStep, hpr]
    rw [processAll_append]
    have hcons : processAll isValid buffer01 from_geojson compat true (r :: post)
        = ((processAll isValid buffer01 from_geojson compat true post).1,
           skipName r
             :: (processAll isValid buffer01 from_geojson compat true post).2) := by
      unfold processAll
      rw [List.foldl_cons, foldl_loadStep_acc, hf0]
      simp only [List.nil_append, List.singleton_append]
      rfl
    rw [hcons]
  · intro hn
    simp [skipName, hn]

/-- Concrete validity for the C7 witness: integers at least 3 are
valid. -/
def isValid7 : Int → Bool := fun g => g ≥ 3

/-- Concrete repair pass for the C7 witness: increment. -/
def buf7 : Int → Int := fun g => g + 1

/-- Concrete conversion for the C7 witness: always succeeds. -/
def conv7 : GeoRecord Int → Except Unit PObj := fun r =>
  .ok (.mk r.geometry.toNat .annot none)

/-- A record whose geometry (0) is still invalid after two repair
passes (0, 1, 2 are all below 3); it carries no classification name. -/
def recNeverValid : GeoRecord Int := ⟨0, none, none, some "x"⟩

/-- A record whose geometry (2) becomes valid after one repair pass. -/
def recOnePass : GeoRecord Int := ⟨2, some "A", none, some "x"⟩

/-- Witness for C7 at the concrete fixture: the unrepairable record in
the middle of a three-record batch is skipped and tallied while its
neighbours are converted. -/
theorem C7_two_repair_passes_then_skip_witness :
    (isValid7 recNeverValid.geometry = false
      ∧ isValid7 (buf7 recNeverValid.geometry) = false
      ∧ isValid7 (buf7 (buf7 recNeverValid.geometry)) = false)
    ∧ processAll isValid7 buf7 conv7 false true
        ([recOnePass] ++ recNeverValid :: [recOnePass])
      = ((processAll isValid7 buf7 conv7 false true [recOnePass]).1
          ++ (processAll isValid7 buf7 conv7 false true [recOnePass]).1,
         (processAll isValid7 buf7 conv7 false true [recOnePass]).2
          ++ skipName recNeverValid
            :: (processAll isValid7 buf7 conv7 false true [recOnePass]).2) :=
  ⟨⟨rfl, rfl, rfl⟩,
    (C7_two_repair_passes_then_skip isValid7 buf7 conv7 false
      [recOnePass] [recOnePass] recNeverValid rfl rfl rfl).2.1⟩

end Paquo
